import Mathlib

/-!
Shallow embedding of the state-synchronization core of `src/App.tsx`
(the "My-Padi" client): profile hydration, the points ledger, the
chat-transcript realtime merge, and the merge-patch profile operations.

Remote (Supabase) calls are modelled by passing their outcome as an
explicit argument: a `Bool` persist flag, an `Option row` echo, or an
`Except Unit row` result.  JavaScript objects with optional string
fields become structures of `Option String`; a JS falsy check on such
a field (`!x`, `x || d`) is `none` or `some ""`.
-/

namespace Padi

/-- `SubscriptionTier` from App.tsx line 18. -/
inductive SubscriptionTier where
  | Free | Basic | Standard | Premium | Admin
deriving DecidableEq, Repr

/-- Message role (`'user' | 'model'`, App.tsx line 22). -/
inductive Role where
  | user | model
deriving DecidableEq, Repr

/-- `ChatMessage` (App.tsx lines 20-26); `id`, `created_at`, `user_id` optional. -/
structure ChatMessage where
  id : Option String
  role : Role
  content : String
  created_at : Option String
  user_id : Option String
deriving DecidableEq, Repr

/-- `AiProfileInfo` (App.tsx lines 28-34): the required personalization keys.
A field is `none` when the key is absent from the stored map; a wholly null
map (`profile.ai_profile_info || {}`, line 124) is all-`none`. -/
structure AiProfileInfo where
  Name : Option String
  Location : Option String
  Interests : Option String
  language : Option String
deriving DecidableEq, Repr

/-- A persisted `profiles` row (the fields of `UserData` plus `id`). -/
structure ProfileRow where
  id : String
  tier : SubscriptionTier
  points : Int
  is_admin : Bool
  ai_profile_info : AiProfileInfo
  basket_items : List String
deriving DecidableEq, Repr

/-- `CurrentUser` (App.tsx lines 44-48): the session's local view. -/
structure CurrentUser where
  id : String
  email : Option String
  tier : SubscriptionTier
  points : Int
  is_admin : Bool
  ai_profile_info : AiProfileInfo
  basket_items : List String
  language : String
deriving DecidableEq, Repr

/-- JS `String.prototype.toLowerCase` for the ASCII strings this app compares:
lower-case each character. -/
def toLowerCase (s : String) : String :=
  ⟨s.data.map Char.toLower⟩

/-- JS truthiness failure for an optional string field: absent or `""`. -/
def falsyStr : Option String → Bool
  | none => true
  | some s => s == ""

/-- `x || 'English'` on the optional `language` field (App.tsx lines 131, 142, 160). -/
def langOrEnglish : Option String → String
  | none => "English"
  | some s => if s == "" then "English" else s

/-! ## Ledger: `deductPoints` (App.tsx lines 280-302) -/

/-- Result of a `deductPoints` call: the returned boolean, the final local
session state, and the points value issued to the remote
`update({ points: newPoints })` call (`none` when no write was issued). -/
structure DeductOutcome where
  ok : Bool
  user : Option CurrentUser
  write : Option Int
deriving DecidableEq, Repr

/-- `deductPoints` (App.tsx lines 280-302).  `persistOk` is the outcome of the
remote `profiles.update`; on failure the rollback handler receives the
then-current (optimistically decremented) state `prev` and restores
`prev.points + amount`. -/
def deductPoints (currentUser : Option CurrentUser) (amount : Int)
    (persistOk : Bool) : DeductOutcome :=
  match currentUser with
  | none => ⟨true, none, none⟩
  | some u =>
    if u.is_admin then ⟨true, some u, none⟩
    else if u.points < amount then ⟨false, some u, none⟩
    else
      let newPoints := u.points - amount
      let optimistic := { u with points := newPoints }
      if persistOk then ⟨true, some optimistic, some newPoints⟩
      else ⟨false, some { optimistic with points := optimistic.points + amount },
            some newPoints⟩

/-! ## Profile hydration: `fetchAndHydrateProfile` (App.tsx lines 111-170) -/

/-- The raw administrator allow-list literals (App.tsx lines 65-69, before the
`.map(email => email.toLowerCase())`). -/
def ADMIN_EMAILS_raw : List String :=
  ["samfolarvic@gmail.com", "test@example.dev", "super@user.com"]

/-- `ADMIN_EMAILS` (App.tsx lines 65-69): the allow-list, lower-cased. -/
def ADMIN_EMAILS : List String :=
  ADMIN_EMAILS_raw.map toLowerCase

/-- The default personalization used when constructing a new profile
(App.tsx line 150). -/
def newUserAiInfo : AiProfileInfo :=
  { Name := some "Padi", Location := some "the cloud",
    Interests := some "learning new things and chatting",
    language := some "English" }

/-- `newUserProfile` (App.tsx lines 144-152): the profile row constructed when
no row exists for the identity.  `email` is the identity's optional email;
`ADMIN_EMAILS.includes(user.email?.toLowerCase() || '')`. -/
def newUserProfile (uid : String) (email : Option String) : ProfileRow :=
  let isAdmin := ADMIN_EMAILS.contains ((email.map toLowerCase).getD "")
  { id := uid,
    tier := if isAdmin then .Admin else .Free,
    points := 5000,
    is_admin := isAdmin,
    ai_profile_info := newUserAiInfo,
    basket_items := [] }

/-- `needsUpdate` (App.tsx line 125): some required personalization key is
absent or falsy (`""`). -/
def needsUpdate (info : AiProfileInfo) : Bool :=
  falsyStr info.Name || falsyStr info.Location || falsyStr info.Interests ||
    falsyStr info.language

/-- JS spread `{...default, ...current}` on one key: the current value when the
key is present (even `""`), else the default. -/
def keyOrDefault (cur : Option String) (dflt : String) : Option String :=
  match cur with
  | some s => some s
  | none => some dflt

/-- `updatedAiInfo` (App.tsx lines 128-132):
`{ ...defaultProfileInfo, ...currentProfileInfo, language: currentProfileInfo.language || 'English' }`
where `defaultProfileInfo` holds Name/Location/Interests only (line 123). -/
def backfillInfo (info : AiProfileInfo) : AiProfileInfo :=
  { Name := keyOrDefault info.Name "Padi",
    Location := keyOrDefault info.Location "the cloud",
    Interests := keyOrDefault info.Interests "learning new things and chatting",
    language := some (langOrEnglish info.language) }

/-- The personalization map a hydrated session ends up with: back-filled when
some required key was missing/falsy, otherwise the stored map untouched
(App.tsx lines 125-141). -/
def hydratedInfo (info : AiProfileInfo) : AiProfileInfo :=
  if needsUpdate info then backfillInfo info else info

/-- `setCurrentUser({ ...profile, email: user.email, language: profile.ai_profile_info?.language || 'English' })`
(App.tsx lines 142 and 160). -/
def rowToCurrentUser (profile : ProfileRow) (email : Option String) : CurrentUser :=
  { id := profile.id, email := email, tier := profile.tier,
    points := profile.points, is_admin := profile.is_admin,
    ai_profile_info := profile.ai_profile_info,
    basket_items := profile.basket_items,
    language := langOrEnglish profile.ai_profile_info.language }

/-- The found-profile branch of `fetchAndHydrateProfile` (App.tsx lines
122-142).  `updateRes` is the row echoed by the back-fill
`update(...).select().single()`: `none` covers both an update error and a null
echo (`profile = updatedProfile || { ...profile, ai_profile_info: updatedAiInfo }`,
line 140). -/
def hydrateExisting (row : ProfileRow) (email : Option String)
    (updateRes : Option ProfileRow) : CurrentUser :=
  let currentProfileInfo := row.ai_profile_info
  if needsUpdate currentProfileInfo then
    let updatedAiInfo := backfillInfo currentProfileInfo
    let profile :=
      match updateRes with
      | some updatedProfile => updatedProfile
      | none => { row with ai_profile_info := updatedAiInfo }
    rowToCurrentUser profile email
  else rowToCurrentUser row email

/-- The no-profile branch of `fetchAndHydrateProfile` (App.tsx lines 143-161).
`insertRes` is the outcome of `insert([newUserProfile]).select().single()`:
`.error` is an `insertError` (e.g. an identity-id uniqueness conflict), which
is thrown (line 159) and caught by the surrounding `catch` (line 162), leaving
the session untouched in its provisional state; `.ok none` is a null echo
with no error (line 160 guards `if (newProfile)`); `.ok (some p)` replaces the
session.  The result is the session replacement performed: `none` = the
provisional session is kept. -/
def hydrateCreate (email : Option String)
    (insertRes : Except Unit (Option ProfileRow)) : Option CurrentUser :=
  match insertRes with
  | .error _ => none
  | .ok none => none
  | .ok (some newProfile) => some (rowToCurrentUser newProfile email)

/-! ## Transcript synchronizer: `handleRealtimeUpdate` (App.tsx lines 202-213) -/

/-- A realtime feed event type (`payload.eventType`). -/
inductive RealtimeEventType where
  | INSERT | UPDATE
deriving DecidableEq, Repr

/-- A realtime payload: event type plus the full new row (`payload.new`). -/
structure RealtimePayload where
  eventType : RealtimeEventType
  new : ChatMessage
deriving DecidableEq, Repr

/-- `handleRealtimeUpdate` (App.tsx lines 202-213), as the transformation it
applies to the local `chatHistory` sequence.
INSERT: discard when `prev.find(msg => msg.id === newMessage.id)` hits,
else append.  UPDATE: replace every message whose id matches, in place. -/
def handleRealtimeUpdate (payload : RealtimePayload)
    (prev : List ChatMessage) : List ChatMessage :=
  match payload.eventType with
  | .INSERT =>
    let newMessage := payload.new
    if (prev.find? (fun msg => msg.id == newMessage.id)).isSome then prev
    else prev ++ [newMessage]
  | .UPDATE =>
    let updatedMessage := payload.new
    prev.map (fun msg => if msg.id == updatedMessage.id then updatedMessage else msg)

/-- Number of entries of the local sequence carrying a given id. -/
def countId (l : List ChatMessage) (i : Option String) : Nat :=
  (l.filter (fun msg => msg.id == i)).length

/-! ## Merge-patch operations (App.tsx lines 331-402) -/

/-- JS spread `{...currentUser.ai_profile_info, ...updatedProfile}`: shallow
key overwrite, patch keys win when present. -/
def mergeInfo (cur patch : AiProfileInfo) : AiProfileInfo :=
  { Name := match patch.Name with | some s => some s | none => cur.Name,
    Location := match patch.Location with | some s => some s | none => cur.Location,
    Interests := match patch.Interests with | some s => some s | none => cur.Interests,
    language := match patch.language with | some s => some s | none => cur.language }

/-- `updateAiProfileInfo` (App.tsx lines 358-381).  `remote` is the outcome of
`update({ ai_profile_info: newProfileInfo }).select().single()`: on `.error`
the exception is caught and logged and the session is untouched; on
`.ok none` (no error, null data) nothing is set either; on `.ok (some data)`
the session takes the server-confirmed map. -/
def updateAiProfileInfo (u : CurrentUser) (updatedProfile : AiProfileInfo)
    (remote : Except Unit (Option ProfileRow)) : CurrentUser × AiProfileInfo :=
  let newProfileInfo := mergeInfo u.ai_profile_info updatedProfile
  match remote with
  | .error _ => (u, newProfileInfo)
  | .ok none => (u, newProfileInfo)
  | .ok (some data) =>
    ({ u with ai_profile_info := data.ai_profile_info,
              language := langOrEnglish data.ai_profile_info.language },
     newProfileInfo)

/-- `updateLanguage` (App.tsx lines 383-402); same remote contract as
`updateAiProfileInfo`. -/
def updateLanguage (u : CurrentUser) (newLanguage : String)
    (remote : Except Unit (Option ProfileRow)) : CurrentUser × AiProfileInfo :=
  let updatedProfileInfo := { u.ai_profile_info with language := some newLanguage }
  match remote with
  | .error _ => (u, updatedProfileInfo)
  | .ok none => (u, updatedProfileInfo)
  | .ok (some data) =>
    ({ u with ai_profile_info := data.ai_profile_info,
              language := langOrEnglish data.ai_profile_info.language },
     updatedProfileInfo)

/-- `addToBasket` (App.tsx lines 331-343): no-op when the content is already
present; otherwise issue `update({ basket_items: updatedBasket })` and apply
`updatedBasket` locally only when it succeeds (`persistOk`). -/
def addToBasket (u : CurrentUser) (content : String) (persistOk : Bool) :
    CurrentUser :=
  if u.basket_items.contains content then u
  else
    let updatedBasket := u.basket_items ++ [content]
    if persistOk then { u with basket_items := updatedBasket } else u

/-- `removeFromBasket` (App.tsx lines 345-356): remove by position, persist the
whole list, apply locally only on success. -/
def removeFromBasket (u : CurrentUser) (index : Nat) (persistOk : Bool) :
    CurrentUser :=
  let updatedBasket :=
    (u.basket_items.enum.filter (fun p => p.1 != index)).map (fun p => p.2)
  if persistOk then { u with basket_items := updatedBasket } else u

/-! ## Checkout credit: `handleCheckoutSuccess` (App.tsx lines 310-329) -/

/-- Result of `handleCheckoutSuccess`: the final local session state and the
`{ tier, points }` payload issued to the remote update (always issued when a
session exists). -/
structure CheckoutOutcome where
  user : CurrentUser
  write : SubscriptionTier × Int
deriving DecidableEq, Repr

/-- `handleCheckoutSuccess` (App.tsx lines 310-329).  `remote` is the outcome
of `update({ tier, points: newTotalPoints }).select().single()`: on `.error`
the exception is caught and logged, leaving the session untouched; on `.ok`
both local fields are replaced from the server-confirmed row `data`. -/
def handleCheckoutSuccess (u : CurrentUser) (tier : SubscriptionTier)
    (points : Int) (remote : Except Unit ProfileRow) : CheckoutOutcome :=
  let newTotalPoints := u.points + points
  match remote with
  | .error _ => ⟨u, (tier, newTotalPoints)⟩
  | .ok data => ⟨{ u with tier := data.tier, points := data.points },
                 (tier, newTotalPoints)⟩

/-! ## Sample data for witnesses and counterexamples -/

/-- A fully populated personalization map. -/
def sampleInfo : AiProfileInfo :=
  { Name := some "Padi", Location := some "the cloud",
    Interests := some "learning new things and chatting",
    language := some "English" }

/-- A non-admin session with 100 points. -/
def sampleUser : CurrentUser :=
  { id := "user-1", email := some "ada@example.com", tier := .Free,
    points := 100, is_admin := false, ai_profile_info := sampleInfo,
    basket_items := ["first item"], language := "English" }

/-- An admin session. -/
def sampleAdmin : CurrentUser :=
  { id := "user-2", email := some "samfolarvic@gmail.com", tier := .Admin,
    points := 5000, is_admin := true, ai_profile_info := sampleInfo,
    basket_items := [], language := "English" }

/-! ## Ledger theorems -/

/-- C1: for every non-admin session and every `amount ≤ points`,
`deductPoints(amount)` with a successful remote persist returns success,
reduces the session's points by exactly `amount`, and the value written to
the remote profile row equals the new local value. -/
theorem deductPoints_success_debits_exactly (u : CurrentUser) (amount : Int)
    (hadmin : u.is_admin = false) (hle : amount ≤ u.points) :
    deductPoints (some u) amount true =
      ⟨true, some { u with points := u.points - amount },
       some (u.points - amount)⟩ := by
  simp [deductPoints, hadmin, not_lt.mpr hle]

/-- Witness for C1: `sampleUser` (100 points, non-admin) debited 30 with a
successful persist. -/
theorem deductPoints_success_debits_exactly_witness :
    deductPoints (some sampleUser) 30 true =
      ⟨true, some { sampleUser with points := sampleUser.points - 30 },
       some (sampleUser.points - 30)⟩ :=
  deductPoints_success_debits_exactly sampleUser 30 rfl (by decide)

/-- C2: for every non-admin session, when the remote persist fails after the
optimistic local decrement, the local points are restored to the pre-debit
value (the whole session state is exactly the pre-call state) and the call
returns `false`. -/
theorem deductPoints_failure_rolls_back (u : CurrentUser) (amount : Int)
    (hadmin : u.is_admin = false) (hle : amount ≤ u.points) :
    deductPoints (some u) amount false =
      ⟨false, some u, some (u.points - amount)⟩ := by
  obtain ⟨i, e, t, p, a, ai, b, l⟩ := u
  simp only [CurrentUser.is_admin] at hadmin
  subst hadmin
  simp [deductPoints, not_lt.mpr hle, Int.sub_add_cancel]

/-- Witness for C2: `sampleUser` debited 30 with a failing persist ends with
its original 100 points and a `false` result. -/
theorem deductPoints_failure_rolls_back_witness :
    deductPoints (some sampleUser) 30 false =
      ⟨false, some sampleUser, some (sampleUser.points - 30)⟩ :=
  deductPoints_failure_rolls_back sampleUser 30 rfl (by decide)

/-- C6: for every non-admin session and every `amount > points`,
`deductPoints(amount)` returns `false`, leaves the session unchanged, and
issues no remote write. -/
theorem deductPoints_insufficient_leaves_unchanged (u : CurrentUser)
    (amount : Int) (persistOk : Bool)
    (hadmin : u.is_admin = false) (hlt : u.points < amount) :
    deductPoints (some u) amount persistOk = ⟨false, some u, none⟩ := by
  simp [deductPoints, hadmin, hlt]

/-- Witness for C6: `sampleUser` (100 points) debited 150. -/
theorem deductPoints_insufficient_leaves_unchanged_witness :
    deductPoints (some sampleUser) 150 true = ⟨false, some sampleUser, none⟩ :=
  deductPoints_insufficient_leaves_unchanged sampleUser 150 true rfl (by decide)

/-- C7: for every admin session and every amount, `deductPoints(amount)`
returns `true`, leaves the session unchanged, and issues no remote write. -/
theorem deductPoints_admin_no_change (u : CurrentUser) (amount : Int)
    (persistOk : Bool) (hadmin : u.is_admin = true) :
    deductPoints (some u) amount persistOk = ⟨true, some u, none⟩ := by
  simp [deductPoints, hadmin]

/-- Witness for C7: `sampleAdmin` debited 999999 with a failing persist flag
still succeeds untouched. -/
theorem deductPoints_admin_no_change_witness :
    deductPoints (some sampleAdmin) 999999 false =
      ⟨true, some sampleAdmin, none⟩ :=
  deductPoints_admin_no_change sampleAdmin 999999 false rfl

/-! ## Transcript synchronizer theorems -/

/-- A message already appended locally (id 41). -/
def msgHello : ChatMessage :=
  { id := some "41", role := .user, content := "hi",
    created_at := some "2024-01-01T00:00:00Z", user_id := some "user-1" }

/-- A row arriving on the realtime feed (id 42). -/
def msgEcho : ChatMessage :=
  { id := some "42", role := .model, content := "hello",
    created_at := some "2024-01-01T00:00:05Z", user_id := some "user-1" }

/-- C4: over any local sequence holding at most one entry with the event row's
id (the maintained one-entry-per-id invariant), delivering the `INSERT` event
twice leaves exactly one entry with that id; a single delivery to a sequence
that already holds the id (a prior local append) also leaves exactly one;
an `INSERT` whose id is already present is discarded and otherwise the row is
appended at the end. -/
theorem insert_event_idempotent (prev : List ChatMessage) (m : ChatMessage)
    (h : countId prev m.id ≤ 1) :
    countId (handleRealtimeUpdate ⟨.INSERT, m⟩
        (handleRealtimeUpdate ⟨.INSERT, m⟩ prev)) m.id = 1 ∧
    (countId prev m.id = 1 →
      countId (handleRealtimeUpdate ⟨.INSERT, m⟩ prev) m.id = 1) ∧
    ((∃ x ∈ prev, x.id = m.id) →
      handleRealtimeUpdate ⟨.INSERT, m⟩ prev = prev) ∧
    ((∀ x ∈ prev, x.id ≠ m.id) →
      handleRealtimeUpdate ⟨.INSERT, m⟩ prev = prev ++ [m]) := by
  have hm : (m.id == m.id) = true := by simp
  by_cases hfind : (prev.find? (fun msg => msg.id == m.id)).isSome = true
  · obtain ⟨x, hx, hpx⟩ := List.find?_isSome.mp hfind
    have hmem : x ∈ prev.filter (fun msg => msg.id == m.id) :=
      List.mem_filter.mpr ⟨hx, hpx⟩
    have h1 : 0 < countId prev m.id := List.length_pos_of_mem hmem
    have heq : countId prev m.id = 1 := by omega
    have hstep : handleRealtimeUpdate ⟨.INSERT, m⟩ prev = prev := by
      simp [handleRealtimeUpdate, hfind]
    refine ⟨?_, fun _ => ?_, fun _ => hstep, fun hall => ?_⟩
    · rw [hstep, hstep]; exact heq
    · rw [hstep]; exact heq
    · exact absurd (by simpa using hpx) (hall x hx)
  · have hnone : ∀ x ∈ prev, ¬((x.id == m.id) = true) := by
      intro x hx hpx
      exact hfind (List.find?_isSome.mpr ⟨x, hx, hpx⟩)
    have hzero : countId prev m.id = 0 := by
      unfold countId
      rw [List.filter_eq_nil_iff.mpr hnone]
      rfl
    have hstep : handleRealtimeUpdate ⟨.INSERT, m⟩ prev = prev ++ [m] := by
      simp only [handleRealtimeUpdate]
      rw [if_neg (by simpa using hfind)]
    have hfind2 : ((prev ++ [m]).find? (fun msg => msg.id == m.id)).isSome = true :=
      List.find?_isSome.mpr ⟨m, by simp, hm⟩
    have hstep2 : handleRealtimeUpdate ⟨.INSERT, m⟩ (prev ++ [m]) = prev ++ [m] := by
      simp [handleRealtimeUpdate, hfind2]
    have hcount : countId (prev ++ [m]) m.id = 1 := by
      unfold countId
      rw [List.filter_append, List.filter_eq_nil_iff.mpr hnone]
      simp [hm]
    refine ⟨?_, fun h1 => by omega, fun hex => ?_, fun _ => hstep⟩
    · rw [hstep, hstep2]; exact hcount
    · obtain ⟨x, hx, hide⟩ := hex
      exact absurd (List.find?_isSome.mpr ⟨x, hx, by simp [hide]⟩) hfind

/-- Witness for C4: the echo of message 42 delivered twice over `[msgHello]`
yields exactly one copy of id 42, appended at the end. -/
theorem insert_event_idempotent_witness :
    countId (handleRealtimeUpdate ⟨.INSERT, msgEcho⟩
        (handleRealtimeUpdate ⟨.INSERT, msgEcho⟩ [msgHello])) msgEcho.id = 1 ∧
    handleRealtimeUpdate ⟨.INSERT, msgEcho⟩ [msgHello] = [msgHello] ++ [msgEcho] := by
  obtain ⟨h1, _, _, h4⟩ := insert_event_idempotent [msgHello] msgEcho (by decide)
  exact ⟨h1, h4 (by decide)⟩

/-! ## Profile creation theorems -/

/-- C8: a profile constructed for an identity with no stored row is admin iff
the email matches the allow-list case-insensitively; its tier is Admin exactly
when it is admin and Free otherwise; and its points grant is 5000 for every
identity (email present or not). -/
theorem newUserProfile_admin_allowlist (uid e : String) (email : Option String) :
    ((newUserProfile uid (some e)).is_admin = true ↔
      ∃ a ∈ ADMIN_EMAILS_raw, toLowerCase a = toLowerCase e) ∧
    ((newUserProfile uid (some e)).is_admin = true →
      (newUserProfile uid (some e)).tier = SubscriptionTier.Admin) ∧
    ((newUserProfile uid (some e)).is_admin = false →
      (newUserProfile uid (some e)).tier = SubscriptionTier.Free) ∧
    (newUserProfile uid email).points = 5000 := by
  refine ⟨?_, ?_, ?_, ?_⟩
  · simp [newUserProfile, ADMIN_EMAILS]
  · intro h
    simp only [newUserProfile] at h ⊢
    simp only [h, if_true]
  · intro h
    simp only [newUserProfile] at h ⊢
    simp only [h, Bool.false_eq_true, if_false]
  · rfl

/-- Witness for C8: a case-variant of the allow-listed `test@example.dev`
yields an admin profile with tier Admin; an email-less identity still gets
5000 points. -/
theorem newUserProfile_admin_allowlist_witness :
    (newUserProfile "user-3" (some "Test@Example.DEV")).is_admin = true ∧
    (newUserProfile "user-3" (some "Test@Example.DEV")).tier =
      SubscriptionTier.Admin ∧
    (newUserProfile "user-3" none).points = 5000 := by
  obtain ⟨hiff, hadm, _, hpts⟩ :=
    newUserProfile_admin_allowlist "user-3" "Test@Example.DEV" none
  have h : (newUserProfile "user-3" (some "Test@Example.DEV")).is_admin = true :=
    hiff.mpr ⟨"test@example.dev", by decide, by decide⟩
  exact ⟨h, hadm h, hpts⟩

/-! ## Hydration conflict-path theorems -/

/-- C3 counterexample: when the insert of a new profile fails (the
identity-id uniqueness conflict case), the store does NOT re-fetch and adopt
the concurrently inserted row: the session replacement is `none` (the session
stays provisional), not the existing row. -/
theorem hydrateCreate_conflict_keeps_provisional_counterexample :
    hydrateCreate (some "x@y.z") (Except.error ()) = none ∧
    hydrateCreate (some "x@y.z") (Except.error ()) ≠
      some (rowToCurrentUser (newUserProfile "user-9" (some "x@y.z"))
        (some "x@y.z")) := by
  exact ⟨rfl, by decide⟩

/-- C3 amended: on any failing insert (uniqueness conflict included) the
thrown error is caught and logged and the session is left in its provisional
state; no re-fetch of the existing row is performed. -/
theorem hydrateCreate_insert_error_leaves_provisional (email : Option String)
    (e : Unit) :
    hydrateCreate email (Except.error e) = none := rfl

/-! ## Back-fill theorems -/

/-- A stored personalization map whose `language` key is present but empty. -/
def storedInfoEmptyLang : AiProfileInfo :=
  { Name := some "Ada", Location := some "Lagos", Interests := some "music",
    language := some "" }

/-- A stored profile row holding `storedInfoEmptyLang`. -/
def storedRowEmptyLang : ProfileRow :=
  { id := "user-5", tier := .Free, points := 120, is_admin := false,
    ai_profile_info := storedInfoEmptyLang, basket_items := [] }

/-- C5 counterexample: hydrating a stored profile whose `language` key is
present with value `""` does not keep the stored value — the key is rewritten
to `"English"`, so a present key IS overwritten. -/
theorem hydrate_overwrites_empty_language_counterexample :
    storedRowEmptyLang.ai_profile_info.language = some "" ∧
    (hydrateExisting storedRowEmptyLang (some "ada@example.com")
        (some { storedRowEmptyLang with
                ai_profile_info := backfillInfo storedInfoEmptyLang })
      ).ai_profile_info.language = some "English" := by
  exact ⟨rfl, by decide⟩

/-- `falsyStr o = false` exactly when the key is present and non-empty. -/
theorem falsyStr_eq_false (o : Option String) :
    falsyStr o = false ↔ ∃ s, o = some s ∧ s ≠ "" := by
  cases o <;> simp [falsyStr]

/-- C5 amended: during hydration of an existing profile every missing
required key is filled with its default; present `Name`/`Location`/
`Interests` keys keep their stored values (empty strings included); a present
non-empty `language` keeps its value, but a present `language` equal to `""`
is treated as missing and replaced with the default `"English"`.  The final
conjunct ties this to the hydration path: the session's map after
`hydrateExisting` (with the back-fill write echoed) is `hydratedInfo` of the
stored map. -/
theorem hydratedInfo_per_key (info : AiProfileInfo) :
    (info.Name = none → (hydratedInfo info).Name = some "Padi") ∧
    (∀ s, info.Name = some s → (hydratedInfo info).Name = some s) ∧
    (info.Location = none → (hydratedInfo info).Location = some "the cloud") ∧
    (∀ s, info.Location = some s → (hydratedInfo info).Location = some s) ∧
    (info.Interests = none →
      (hydratedInfo info).Interests = some "learning new things and chatting") ∧
    (∀ s, info.Interests = some s → (hydratedInfo info).Interests = some s) ∧
    (info.language = none → (hydratedInfo info).language = some "English") ∧
    (info.language = some "" → (hydratedInfo info).language = some "English") ∧
    (∀ s, s ≠ "" → info.language = some s →
      (hydratedInfo info).language = some s) ∧
    (∀ row email, (hydrateExisting row email
        (some { row with ai_profile_info := backfillInfo row.ai_profile_info })
      ).ai_profile_info = hydratedInfo row.ai_profile_info) := by
  have hlink : ∀ row email, (hydrateExisting row email
      (some { row with ai_profile_info := backfillInfo row.ai_profile_info })
    ).ai_profile_info = hydratedInfo row.ai_profile_info := by
    intro row email
    by_cases h : needsUpdate row.ai_profile_info = true <;>
      simp [hydrateExisting, hydratedInfo, rowToCurrentUser, h]
  by_cases hup : needsUpdate info = true
  · refine ⟨?_, ?_, ?_, ?_, ?_, ?_, ?_, ?_, ?_, hlink⟩ <;>
      simp only [hydratedInfo, hup, if_true]
    · intro h; simp [backfillInfo, keyOrDefault, h]
    · intro s h; simp [backfillInfo, keyOrDefault, h]
    · intro h; simp [backfillInfo, keyOrDefault, h]
    · intro s h; simp [backfillInfo, keyOrDefault, h]
    · intro h; simp [backfillInfo, keyOrDefault, h]
    · intro s h; simp [backfillInfo, keyOrDefault, h]
    · intro h; simp [backfillInfo, langOrEnglish, h]
    · intro h; simp [backfillInfo, langOrEnglish, h]
    · intro s hs h; simp [backfillInfo, langOrEnglish, h, hs]
  · have hfalse : needsUpdate info = false := by
      simpa using hup
    have hN : falsyStr info.Name = false := by
      simp [needsUpdate] at hfalse; exact hfalse.1.1.1
    have hL : falsyStr info.Location = false := by
      simp [needsUpdate] at hfalse; exact hfalse.1.1.2
    have hI : falsyStr info.Interests = false := by
      simp [needsUpdate] at hfalse; exact hfalse.1.2
    have hG : falsyStr info.language = false := by
      simp [needsUpdate] at hfalse; exact hfalse.2
    obtain ⟨sN, hsN, _⟩ := (falsyStr_eq_false _).mp hN
    obtain ⟨sG, hsG, hsGne⟩ := (falsyStr_eq_false _).mp hG
    obtain ⟨sL, hsL, _⟩ := (falsyStr_eq_false _).mp hL
    obtain ⟨sI, hsI, _⟩ := (falsyStr_eq_false _).mp hI
    have hid : hydratedInfo info = info := by
      simp [hydratedInfo, hfalse]
    refine ⟨?_, ?_, ?_, ?_, ?_, ?_, ?_, ?_, ?_, hlink⟩ <;> rw [hid]
    · intro h; rw [h] at hsN; cases hsN
    · intro s h; exact h
    · intro h; rw [h] at hsL; cases hsL
    · intro s h; exact h
    · intro h; rw [h] at hsI; cases hsI
    · intro s h; exact h
    · intro h; rw [h] at hsG; cases hsG
    · intro h
      rw [h] at hsG
      cases hsG
      exact absurd rfl hsGne
    · intro s _ h; exact h

/-- Witness for C5 amended: a map with `Name` absent, `Location` present but
empty, and a present non-empty `language` — the missing key is filled, the
empty `Location` is kept, the non-empty `language` is kept. -/
theorem hydratedInfo_per_key_witness :
    (hydratedInfo ⟨none, some "", some "music", some "fr"⟩).Name = some "Padi" ∧
    (hydratedInfo ⟨none, some "", some "music", some "fr"⟩).Location = some "" ∧
    (hydratedInfo ⟨none, some "", some "music", some "fr"⟩).language = some "fr" := by
  obtain ⟨h1, _, _, h4, _, _, _, _, h9, _⟩ :=
    hydratedInfo_per_key ⟨none, some "", some "music", some "fr"⟩
  exact ⟨h1 rfl, h4 "" rfl, h9 "fr" (by decide) rfl⟩

/-! ## Merge-patch failure theorems -/

/-- C9: when the remote whole-field update fails, `updateAiProfileInfo`,
`updateLanguage` and `addToBasket` all leave the whole local session state
exactly as it was before the call — these paths change local state only
after server confirmation. -/
theorem mergePatch_failure_leaves_state (u : CurrentUser)
    (patch : AiProfileInfo) (newLanguage : String) (item : String) :
    (updateAiProfileInfo u patch (Except.error ())).1 = u ∧
    (updateLanguage u newLanguage (Except.error ())).1 = u ∧
    addToBasket u item false = u := by
  refine ⟨rfl, rfl, ?_⟩
  simp [addToBasket]

/-! ## Checkout credit theorem -/

/-- C10: when the remote read-modify-write of `handleCheckoutSuccess` fails,
the local session (tier and points included) is exactly its pre-call value;
and on success both fields come from the server-confirmed row. -/
theorem handleCheckoutSuccess_failure_leaves_state (u : CurrentUser)
    (tier : SubscriptionTier) (points : Int) (row : ProfileRow) :
    (handleCheckoutSuccess u tier points (Except.error ())).user = u ∧
    (handleCheckoutSuccess u tier points (Except.ok row)).user =
      { u with tier := row.tier, points := row.points } :=
  ⟨rfl, rfl⟩

end Padi
